import Mathlib

/-!
Verification development for the `pokemon-showdown-helper` numeric core:
a shallow embedding, in Lean 4, of the stat calculator
(`core_logic/pokemon_object.py`), the damage formula
(`core_logic/damage_calculator.py`) and the EV allocation solver
(`core_logic/ev_optimizer.py`), together with theorems settling the
specified properties of those components.

Modelling conventions:
- Python `int` is modelled as `Int`; Python float arithmetic is modelled
  exactly with `Rat`.  Every float produced by the embedded code is of the
  form (small integer expression) / 100 times a multiplier from a fixed
  table of rationals; the binary-double rounding error of CPython is far
  smaller than the distance from any such value to the nearest point where
  a comparison or an `int(...)` truncation changes, so the rational model
  agrees with the float semantics on everything stated below.
- Python `int(x)` truncates toward zero: `pyInt`.
- Python `//` on integers is floor division: Lean `/` on `Int`, which is
  `Int.ediv` (the divisors in this code are positive, where Euclidean and
  floor division coincide).
- Python exceptions are modelled with `Except PyErr`.
- Python dicts keyed by the six stat names are modelled as the total
  record `StatMap`; a stat absent from a per-nature modifier dict is the
  `none` case of an association-list lookup, exactly as a missing key.
-/

/-- Python exception classes that the embedded code can raise. -/
inductive PyErr : Type
  /-- `KeyError`: a dict lookup with a missing key. -/
  | keyError : PyErr
  /-- `AttributeError`: attribute access on an object that lacks it. -/
  | attributeError : PyErr
  /-- `NameError`: use of an undefined name. -/
  | nameError : PyErr
  /-- `TypeError`: an operation applied to operands of the wrong type. -/
  | typeError : PyErr
  /-- `ZeroDivisionError`. -/
  | zeroDivisionError : PyErr
  deriving DecidableEq, Repr

/-- The six stat keys `"hp" "atk" "def" "spa" "spd" "spe"` used by the
repository (`de` stands for the Python key `"def"`). -/
inductive Stat : Type
  | hp | atk | de | spa | spd | spe
  deriving DecidableEq, Repr

/-- A Python dict with exactly the six stat keys. -/
structure StatMap (α : Type) : Type where
  hp : α
  atk : α
  de : α
  spa : α
  spd : α
  spe : α
  deriving DecidableEq, Repr

/-- Dict read `m[s]`. -/
def StatMap.get {α : Type} (m : StatMap α) : Stat → α
  | .hp => m.hp
  | .atk => m.atk
  | .de => m.de
  | .spa => m.spa
  | .spd => m.spd
  | .spe => m.spe

/-- Dict write `m[s] = v`. -/
def StatMap.set {α : Type} (m : StatMap α) : Stat → α → StatMap α
  | .hp, v => { m with hp := v }
  | .atk, v => { m with atk := v }
  | .de, v => { m with de := v }
  | .spa, v => { m with spa := v }
  | .spd, v => { m with spd := v }
  | .spe, v => { m with spe := v }

/-- The constant dict `x` on all six keys. -/
def StatMap.const {α : Type} (x : α) : StatMap α := ⟨x, x, x, x, x, x⟩

/-- Python `int(x)` applied to a float: truncation toward zero
(floor for non-negative arguments, ceiling for negative ones). -/
def pyInt (q : Rat) : Int := if 0 ≤ q then ⌊q⌋ else ⌈q⌉

/-- Association-list lookup, modelling a Python dict read that may miss. -/
def lookupStr {α : Type} : List (String × α) → String → Option α
  | [], _ => none
  | (k, v) :: rest, key => if key = k then some v else lookupStr rest key

/-- Association-list lookup over stat keys, for the per-nature dicts. -/
def lookupStat {α : Type} : List (Stat × α) → Stat → Option α
  | [], _ => none
  | (k, v) :: rest, key => if key = k then some v else lookupStat rest key

/-- `NATURES_DATA` from `data_scripts/constants.py`: each nature maps to a
dict holding only the affected non-HP stats (1.1 boosted, 0.9 reduced);
neutral natures map to the empty dict. -/
def naturesData : List (String × List (Stat × Rat)) :=
  [ ("Adamant", [(.atk, 11/10), (.spa, 9/10)])
  , ("Bashful", [])
  , ("Bold", [(.de, 11/10), (.atk, 9/10)])
  , ("Brave", [(.atk, 11/10), (.spe, 9/10)])
  , ("Calm", [(.spd, 11/10), (.atk, 9/10)])
  , ("Careful", [(.spd, 11/10), (.spa, 9/10)])
  , ("Docile", [])
  , ("Gentle", [(.spd, 11/10), (.de, 9/10)])
  , ("Hardy", [])
  , ("Hasty", [(.spe, 11/10), (.de, 9/10)])
  , ("Impish", [(.de, 11/10), (.spa, 9/10)])
  , ("Jolly", [(.spe, 11/10), (.spa, 9/10)])
  , ("Lax", [(.de, 11/10), (.spd, 9/10)])
  , ("Lonely", [(.atk, 11/10), (.de, 9/10)])
  , ("Mild", [(.spa, 11/10), (.de, 9/10)])
  , ("Modest", [(.spa, 11/10), (.atk, 9/10)])
  , ("Naive", [(.spe, 11/10), (.spd, 9/10)])
  , ("Naughty", [(.atk, 11/10), (.spd, 9/10)])
  , ("Quiet", [(.spa, 11/10), (.spe, 9/10)])
  , ("Quirky", [])
  , ("Rash", [(.spa, 11/10), (.spd, 9/10)])
  , ("Relaxed", [(.de, 11/10), (.spe, 9/10)])
  , ("Sassy", [(.spd, 11/10), (.spe, 9/10)])
  , ("Serious", [])
  , ("Timid", [(.spe, 11/10), (.atk, 9/10)])
  ]

/-- `PokemonInstance` (`core_logic/pokemon_object.py`).  Python sets
attributes dynamically: the `status` attribute is never assigned by
`__init__` (only external code such as a test may set it), so it is
modelled as `Option (Option String)` where `none` means the attribute is
absent (reading it raises `AttributeError`), `some none` models
`status = None` and `some (some s)` models `status = s`. -/
structure PokemonInstance : Type where
  species : String
  level : Int
  base_stats : StatMap Int
  iv : StatMap Int
  ev : StatMap Int
  nature : String
  ability : Option String
  item : Option String
  moves : List String
  types : List String
  status : Option (Option String) := none
  deriving DecidableEq, Repr

/-- `PokemonInstance.__init__`: stores every argument verbatim, replacing
an omitted (`None`) argument by its default; the body contains no
validation and no `raise` statement of any kind. -/
def pokemonInstanceInit (species : String) (level : Int := 100)
    (base_stats : Option (StatMap Int) := none)
    (iv : Option (StatMap Int) := none) (ev : Option (StatMap Int) := none)
    (nature : String := "Serious") (ability : Option String := none)
    (item : Option String := none) (moves : Option (List String) := none)
    (types : Option (List String) := none) : PokemonInstance :=
  { species := species
    level := level
    base_stats := base_stats.getD (StatMap.const 50)
    iv := iv.getD (StatMap.const 31)
    ev := ev.getD (StatMap.const 0)
    nature := nature
    ability := ability
    item := item
    moves := moves.getD []
    types := types.getD []
    status := none }

/-- The float `base = (2*self.base_stats[stat] + self.iv[stat] +
self.ev[stat] // 4) * self.level / 100` of `calculate_stats` (true
division by 100). -/
def statBaseExpr (p : PokemonInstance) (s : Stat) : Rat :=
  ((2 * p.base_stats.get s + p.iv.get s + (p.ev.get s) / 4 : Int) : Rat)
    * (p.level : Rat) / 100

/-- The nature-modifier read `nature_modifiers[stat]` of
`calculate_stats`: when the nature is a key of `NATURES_DATA` the
per-nature dict (which omits unaffected stats) is indexed and a missing
stat raises `KeyError`; an unknown nature falls back to the all-1.0
default dict, which always succeeds. -/
def natureModifier (p : PokemonInstance) (s : Stat) : Except PyErr Rat :=
  match lookupStr naturesData p.nature with
  | some mods =>
    match lookupStat mods s with
    | some m => .ok m
    | none => .error .keyError
  | none => .ok 1

/-- One non-HP entry of the loop of `calculate_stats`:
`stats[stat] = int((base + 5) * nature_modifiers[stat])`. -/
def nonHpStat (p : PokemonInstance) (s : Stat) : Except PyErr Int :=
  (natureModifier p s).map (fun m => pyInt ((statBaseExpr p s + 5) * m))

/-- `PokemonInstance.calculate_stats`: loops over the six stats in the
order hp, atk, def, spa, spd, spe; the HP entry is
`int(base + self.level + 10)` and each other entry is
`int((base + 5) * nature_modifiers[stat])`. -/
def calculate_stats (p : PokemonInstance) : Except PyErr (StatMap Int) := do
  let hp := pyInt (statBaseExpr p .hp + (p.level : Rat) + 10)
  let atk ← nonHpStat p .atk
  let de ← nonHpStat p .de
  let spa ← nonHpStat p .spa
  let spd ← nonHpStat p .spd
  let spe ← nonHpStat p .spe
  return ⟨hp, atk, de, spa, spd, spe⟩

/-- The list of move types treated as special by
`core_logic/damage_calculator.py` (the same literal list appears in
`_get_attack_defense_stats`, `_calculate_item_modifier` and
`_calculate_status_modifier`). -/
def specialTypes : List String :=
  ["fire", "water", "electric", "grass", "ice", "psychic", "dragon", "dark", "fairy"]

/-- `self.type_effectiveness` of `DamageCalculator.__init__`: nested dict
from attack type to defend type to multiplier; only non-1 entries are
present. -/
def typeEffectiveness : List (String × List (String × Rat)) :=
  [ ("normal", [("rock", 1/2), ("ghost", 0), ("steel", 1/2)])
  , ("fire", [("fire", 1/2), ("water", 1/2), ("grass", 2), ("ice", 2), ("bug", 2), ("rock", 1/2), ("dragon", 1/2), ("steel", 2)])
  , ("water", [("fire", 2), ("water", 1/2), ("grass", 1/2), ("ground", 2), ("rock", 2), ("dragon", 1/2)])
  , ("electric", [("water", 2), ("electric", 1/2), ("grass", 1/2), ("ground", 0), ("flying", 2), ("dragon", 1/2)])
  , ("grass", [("fire", 1/2), ("water", 2), ("grass", 1/2), ("poison", 1/2), ("ground", 2), ("flying", 1/2), ("bug", 1/2), ("rock", 2), ("dragon", 1/2), ("steel", 1/2)])
  , ("ice", [("fire", 1/2), ("water", 1/2), ("grass", 2), ("ice", 1/2), ("ground", 2), ("flying", 2), ("dragon", 2), ("steel", 1/2)])
  , ("fighting", [("normal", 2), ("ice", 2), ("poison", 1/2), ("flying", 1/2), ("psychic", 1/2), ("bug", 1/2), ("rock", 2), ("ghost", 0), ("dark", 2), ("steel", 2), ("fairy", 1/2)])
  , ("poison", [("grass", 2), ("poison", 1/2), ("ground", 1/2), ("rock", 1/2), ("ghost", 1/2), ("steel", 0), ("fairy", 2)])
  , ("ground", [("fire", 2), ("electric", 2), ("grass", 1/2), ("poison", 2), ("flying", 0), ("bug", 1/2), ("rock", 2), ("steel", 2)])
  , ("flying", [("electric", 1/2), ("grass", 2), ("fighting", 2), ("bug", 2), ("rock", 1/2), ("steel", 1/2)])
  , ("psychic", [("fighting", 2), ("poison", 2), ("psychic", 1/2), ("dark", 0), ("steel", 1/2)])
  , ("bug", [("fire", 1/2), ("grass", 2), ("fighting", 1/2), ("poison", 1/2), ("flying", 1/2), ("psychic", 2), ("ghost", 1/2), ("dark", 2), ("steel", 1/2), ("fairy", 1/2)])
  , ("rock", [("fire", 2), ("ice", 2), ("fighting", 1/2), ("ground", 1/2), ("flying", 2), ("bug", 2), ("steel", 1/2)])
  , ("ghost", [("normal", 0), ("psychic", 2), ("ghost", 2), ("dark", 1/2)])
  , ("dragon", [("dragon", 2), ("steel", 1/2), ("fairy", 0)])
  , ("dark", [("fighting", 1/2), ("psychic", 2), ("ghost", 2), ("dark", 1/2), ("fairy", 1/2)])
  , ("steel", [("fire", 1/2), ("water", 1/2), ("electric", 1/2), ("ice", 2), ("rock", 2), ("steel", 1/2), ("fairy", 2)])
  , ("fairy", [("fighting", 2), ("poison", 1/2), ("dragon", 2), ("dark", 2), ("steel", 1/2)])
  ]

/-- `self.weather_boost` of `DamageCalculator.__init__`. -/
def weatherBoost : List (String × List (String × Rat)) :=
  [ ("sun", [("fire", 3/2), ("water", 1/2)])
  , ("rain", [("water", 3/2), ("fire", 1/2)])
  , ("sand", [("rock", 3/2)])
  , ("hail", [("ice", 3/2)])
  ]

/-- `self.field_boost` of `DamageCalculator.__init__`. -/
def fieldBoost : List (String × List (String × Rat)) :=
  [ ("electric_terrain", [("electric", 3/2)])
  , ("grassy_terrain", [("grass", 3/2)])
  , ("psychic_terrain", [("psychic", 3/2)])
  , ("misty_terrain", [("dragon", 1/2)])
  ]

/-- `DamageCalculator._get_attack_defense_stats`: a move whose type is in
the special-type list uses the attacker final spa against the defender
final spd, any other type uses atk against def; both sides recompute
their final stats via `calculate_stats` (which can raise). -/
def getAttackDefenseStats (attacker defender : PokemonInstance)
    (move_type : String) : Except PyErr (Int × Int) := do
  if move_type ∈ specialTypes then
    let a ← calculate_stats attacker
    let d ← calculate_stats defender
    return (a.spa, d.spd)
  else
    let a ← calculate_stats attacker
    let d ← calculate_stats defender
    return (a.atk, d.de)

/-- `DamageCalculator._calculate_stab`. -/
def calculateStab (attacker : PokemonInstance) (move_type : String) : Rat :=
  if move_type ∈ attacker.types then
    if attacker.ability = some "adaptability" then 2 else 3/2
  else 1

/-- `DamageCalculator._calculate_type_effectiveness`: starts at 1.0 and,
for each defender type present in the row of the move type, multiplies by
the table entry; defender types without an entry (and move types without
a row) leave the product unchanged. -/
def calculateTypeEffectiveness (move_type : String)
    (defender : PokemonInstance) : Rat :=
  defender.types.foldl
    (fun acc dt =>
      match (lookupStr typeEffectiveness move_type).getD [] |> (lookupStr · dt) with
      | some v => acc * v
      | none => acc)
    1

/-- `DamageCalculator._calculate_weather_modifier`: `none` models both
`weather=None` and (via Python truthiness) the empty string. -/
def calculateWeatherModifier (move_type : String)
    (weather : Option String) : Rat :=
  match weather with
  | some w =>
    match lookupStr weatherBoost w with
    | some tbl => (lookupStr tbl move_type).getD 1
    | none => 1
  | none => 1

/-- `DamageCalculator._calculate_field_modifier`. -/
def calculateFieldModifier (move_type : String)
    (field : Option String) : Rat :=
  match field with
  | some f =>
    match lookupStr fieldBoost f with
    | some tbl => (lookupStr tbl move_type).getD 1
    | none => 1
  | none => 1

/-- `DamageCalculator._calculate_ability_modifier`: an if/elif chain on
the attacker ability (skipped entirely when the ability is `None`). -/
def calculateAbilityModifier (attacker : PokemonInstance)
    (move_type : String) (move_power : Int) (effectiveness : Rat) : Rat :=
  match attacker.ability with
  | none => 1
  | some ab =>
    if ab = "technician" ∧ move_power ≤ 60 then 3/2
    else if ab = "tinted_lens" ∧ effectiveness < 1 then 2
    else if ab ∈ ["aerilate", "pixilate", "refrigerate", "galvanize"] ∧
        move_type = "normal" then 6/5
    else 1

/-- `DamageCalculator._calculate_item_modifier`: builds the literal item
dict of the source (choice items keyed to the special-type list) and
looks up the lower-cased held item, defaulting to 1.0; an attacker with
no item short-circuits to 1.0. -/
def calculateItemModifier (attacker : PokemonInstance)
    (move_type : String) : Rat :=
  match attacker.item with
  | none => 1
  | some it =>
    let item_modifiers : List (String × Rat) :=
      [ ("choice_band", if move_type ∉ specialTypes then 3/2 else 1)
      , ("choice_specs", if move_type ∈ specialTypes then 3/2 else 1)
      , ("life_orb", 13/10)
      , ("expert_belt", 6/5)
      , ("metronome", 1)
      , ("muscle_band", if move_type ∉ specialTypes then 11/10 else 1)
      , ("wise_glasses", if move_type ∈ specialTypes then 11/10 else 1)
      ]
    (lookupStr item_modifiers it.toLower).getD 1

/-- `DamageCalculator._calculate_status_modifier`: the body reads
`attacker.status`, an attribute `PokemonInstance.__init__` never assigns,
so on a constructor-built instance the read raises `AttributeError`;
when external code has assigned a status, the guard
`attacker.status == "burn" and move_type not in [...]` short-circuits to
1.0 for a non-burn status, while for `"burn"` it evaluates `move_type`,
a name that is not bound in this method (it is neither a parameter nor a
global), raising `NameError`.  No control path returns 0.5. -/
def calculateStatusModifier (attacker : PokemonInstance) : Except PyErr Rat :=
  match attacker.status with
  | none => .error .attributeError
  | some st => if st = some "burn" then .error .nameError else .ok 1

/-- `DamageCalculator.calculate_damage`.  The call
`random.uniform(0.85, 1.00)` is modelled by the explicit parameter
`rand`, the injectable random factor.  The `move` name argument is unused
by the source body, exactly as here.  The one division whose divisor is
not a literal constant is `/ defense`; Python would raise
`ZeroDivisionError` for a zero defense stat, checked at the point the
base damage is evaluated (after the status modifier, per source order). -/
def calculate_damage (attacker defender : PokemonInstance)
    (move : String) (move_type : String) (move_power : Int)
    (is_critical : Bool := false) (weather : Option String := none)
    (field : Option String := none) (rand : Rat := 1) :
    Except PyErr Int := do
  let _ := move
  let level := attacker.level
  let (attack, defense) ← getAttackDefenseStats attacker defender move_type
  let stab := calculateStab attacker move_type
  let effectiveness := calculateTypeEffectiveness move_type defender
  let critical : Rat := if is_critical then 3/2 else 1
  let random_factor := rand
  let weather_mod := calculateWeatherModifier move_type weather
  let field_mod := calculateFieldModifier move_type field
  let ability_mod := calculateAbilityModifier attacker move_type move_power effectiveness
  let item_mod := calculateItemModifier attacker move_type
  let status_mod ← calculateStatusModifier attacker
  if defense = 0 then
    .error .zeroDivisionError
  else
    let base_damage : Rat :=
      (2 * (level : Rat) / 5 + 2) * (move_power : Rat) * (attack : Rat)
        / (defense : Rat) / 50 + 2
    let modifier := stab * effectiveness * critical * random_factor *
      weather_mod * field_mod * ability_mod * item_mod * status_mod
    return pyInt (base_damage * modifier)

/-- `EVOptimizationGoal` (`core_logic/ev_optimizer.py`).  `stat` is an
`Option Stat`: Python allows `None` (and indexing `base_stats` with it
raises `KeyError`, the same error as for a non-stat string key). -/
structure EVOptimizationGoal : Type where
  type : String
  target_pokemon : Option PokemonInstance := none
  move : Option String := none
  stat : Option Stat := none
  value : Option Rat := none
  priority : Int := 1
  deriving DecidableEq, Repr

/-- `sum(evs.values())`. -/
def sumEvs (m : StatMap Int) : Int := m.hp + m.atk + m.de + m.spa + m.spd + m.spe

/-- `EVOptimizer._get_positive_natures` (note: lower-case nature names,
unlike the capitalised keys of `NATURES_DATA`). -/
def positiveNatures : Stat → List String
  | .atk => ["adamant", "brave", "naughty", "lonely"]
  | .de => ["bold", "relaxed", "impish", "lax"]
  | .spa => ["modest", "quiet", "mild", "rash"]
  | .spd => ["calm", "sassy", "careful", "gentle"]
  | .spe => ["timid", "hasty", "jolly", "naive"]
  | .hp => []

/-- `EVOptimizer._get_negative_natures`. -/
def negativeNatures : Stat → List String
  | .atk => ["modest", "timid", "bold", "calm"]
  | .de => ["lonely", "hasty", "mild", "gentle"]
  | .spa => ["adamant", "impish", "careful", "jolly"]
  | .spd => ["naughty", "lax", "rash", "naive"]
  | .spe => ["brave", "relaxed", "quiet", "sassy"]
  | .hp => []

/-- The conditional nature multiplier used by the required-EV inversion
helpers of `EVOptimizer`. -/
def statNatureMult (p : PokemonInstance) (s : Stat) : Rat :=
  if p.nature ∈ positiveNatures s then 11/10
  else if p.nature ∈ negativeNatures s then 9/10
  else 1

/-- `EVOptimizer._calculate_required_evs_for_stat`:
`max(0, min(int(((target_value / stat_nature - 5) * 100 / base_stat
- 2*base_stat - stat_iv) * 4), 252))`.  A `None` target value raises
`TypeError` in the arithmetic; a zero base stat raises
`ZeroDivisionError`. -/
def calculateRequiredEvsForStat (p : PokemonInstance) (s : Stat)
    (target_value : Option Rat) : Except PyErr Int :=
  let base := p.base_stats.get s
  let stat_iv := p.iv.get s
  let mult := statNatureMult p s
  match target_value with
  | none => .error .typeError
  | some v =>
    if base = 0 then .error .zeroDivisionError
    else
      .ok (max 0 (min
        (pyInt (((v / mult - 5) * 100 / (base : Rat) - 2 * (base : Rat)
          - (stat_iv : Rat)) * 4)) 252))

/-- `EVOptimizer._optimize_survival`.  Its first statement calls
`self.damage_calculator.calculate_damage(attacker, pokemon, move,
attacker.ev, evs)`, binding the dict `attacker.ev` to `move_type` and the
dict `evs` to `move_power`.  Tracing `calculate_damage` under those
arguments: a `None` attacker raises `AttributeError` at `attacker.ev`;
otherwise both stat computations run first (possibly raising `KeyError`
on a table nature); then `_calculate_type_effectiveness` hashes the dict
key `move_type` and raises `TypeError` as soon as `defender.types` is
non-empty; `_calculate_ability_modifier` raises `TypeError` at
`move_power <= 60` for a technician attacker; `_calculate_status_modifier`
raises as usual; and finally `base_damage` multiplies a float by the dict
`move_power`, raising `TypeError`.  Every control path raises before the
damage value exists, so the method never returns. -/
def optimizeSurvival (pokemon : PokemonInstance)
    (attacker : Option PokemonInstance) (move : Option String)
    (evs : StatMap Int) (remaining : Int) : Except PyErr (StatMap Int) :=
  let _ := (move, evs, remaining)
  match attacker with
  | none => .error .attributeError
  | some att => do
    let _ ← calculate_stats att
    let _ ← calculate_stats pokemon
    if pokemon.types ≠ [] then .error .typeError
    else if att.ability = some "technician" then .error .typeError
    else do
      let _ ← calculateStatusModifier att
      .error .typeError

/-- `EVOptimizer._optimize_ohko`: same mis-typed call as
`_optimize_survival`, with the optimised creature attacking the target
(`calculate_damage(pokemon, target, move, evs, target.ev)`); it likewise
raises on every control path. -/
def optimizeOhko (pokemon : PokemonInstance)
    (target : Option PokemonInstance) (move : Option String)
    (evs : StatMap Int) (remaining : Int) : Except PyErr (StatMap Int) :=
  let _ := (move, evs, remaining)
  match target with
  | none => .error .attributeError
  | some tgt => do
    let _ ← calculate_stats pokemon
    let _ ← calculate_stats tgt
    if tgt.types ≠ [] then .error .typeError
    else if pokemon.ability = some "technician" then .error .typeError
    else do
      let _ ← calculateStatusModifier pokemon
      .error .typeError

/-- `EVOptimizer._optimize_2hko`: identical failure structure to
`_optimize_ohko`. -/
def optimize2hko (pokemon : PokemonInstance)
    (target : Option PokemonInstance) (move : Option String)
    (evs : StatMap Int) (remaining : Int) : Except PyErr (StatMap Int) :=
  optimizeOhko pokemon target move evs remaining

/-- `EVOptimizer._optimize_speed`: its first statement evaluates
`target.calculate_speed(target.ev['spe'])`, but `PokemonInstance` defines
no method `calculate_speed` (and a `None` target already fails at
`target.ev`), so the method always raises `AttributeError`. -/
def optimizeSpeed (pokemon : PokemonInstance)
    (target : Option PokemonInstance) (evs : StatMap Int)
    (remaining : Int) : Except PyErr (StatMap Int) :=
  let _ := (pokemon, target, evs, remaining)
  .error .attributeError

/-- `EVOptimizer._optimize_custom`: computes the required EVs for the
target value and assigns (not adds)
`evs[stat] = min(required, 252)` when the requirement fits the remaining
budget, else `evs[stat] = min(remaining, 252)`. -/
def optimizeCustom (pokemon : PokemonInstance) (stat : Option Stat)
    (value : Option Rat) (evs : StatMap Int) (remaining : Int) :
    Except PyErr (StatMap Int) :=
  match stat with
  | none => .error .keyError
  | some s => do
    let required ← calculateRequiredEvsForStat pokemon s value
    if required ≤ remaining then
      return evs.set s (min required 252)
    else
      return evs.set s (min remaining 252)

/-- The per-goal dispatch of the loop body of `EVOptimizer.optimize_evs`;
a goal whose `type` matches no branch leaves the allocation unchanged. -/
def applyGoal (pokemon : PokemonInstance) (g : EVOptimizationGoal)
    (evs : StatMap Int) (remaining : Int) : Except PyErr (StatMap Int) :=
  if g.type = "survive" then
    optimizeSurvival pokemon g.target_pokemon g.move evs remaining
  else if g.type = "ohko" then
    optimizeOhko pokemon g.target_pokemon g.move evs remaining
  else if g.type = "2hko" then
    optimize2hko pokemon g.target_pokemon g.move evs remaining
  else if g.type = "outspeed" then
    optimizeSpeed pokemon g.target_pokemon evs remaining
  else if g.type = "custom" then
    optimizeCustom pokemon g.stat g.value evs remaining
  else
    .ok evs

/-- The goal loop of `EVOptimizer.optimize_evs`: before each goal the
remaining budget `510 - sum(evs.values())` is recomputed and the loop
breaks (returning the current allocation) once it is `<= 0`. -/
def processGoals (pokemon : PokemonInstance) :
    List EVOptimizationGoal → StatMap Int → Except PyErr (StatMap Int)
  | [], evs => .ok evs
  | g :: gs, evs =>
    let remaining := 510 - sumEvs evs
    if remaining ≤ 0 then .ok evs
    else do
      let evs2 ← applyGoal pokemon g evs remaining
      processGoals pokemon gs evs2

/-- `goals.sort(key=lambda g: g.priority, reverse=True)`: a stable sort
into descending priority order. -/
def sortGoalsDesc (goals : List EVOptimizationGoal) :
    List EVOptimizationGoal :=
  goals.mergeSort (fun a b => b.priority ≤ a.priority)

/-- `EVOptimizer.optimize_evs` (`self.max_evs = 510`,
`self.max_stat_evs = 252`): sorts the goals by descending priority,
starts from a copy of `fixed_evs` (or the all-zero dict when it is
`None` or empty, by Python truthiness) and folds the goal loop over it.
The database handle and the special-move set loaded by
`EVOptimizer.__init__` feed only the survive/ohko/2hko branches at
program points those branches can never reach (they raise earlier), so
they need no model. -/
def optimize_evs (pokemon : PokemonInstance)
    (goals : List EVOptimizationGoal)
    (fixed_evs : Option (StatMap Int) := none) :
    Except PyErr (StatMap Int) :=
  processGoals pokemon (sortGoalsDesc goals) (fixed_evs.getD (StatMap.const 0))

/-- The non-HP stat formula exactly as the specification words it:
`floor((floor((2*base + iv + floor(ev/4)) * level / 100) + 5) *
natureMultiplier)`, with the inner quantity floored to an integer before
the nature multiplication and the product floored again.  Written from
the spec, for comparison against the embedded code. -/
def specNonHpStat (base iv ev level : Int) (mult : Rat) : Int :=
  ⌊((⌊((2 * base + iv + ev / 4 : Int) : Rat) * (level : Rat) / 100⌋ + 5 : Int) : Rat) * mult⌋

/-- A level-100 creature with the given base stats and types, all-31 IVs,
all-0 EVs and the lower-case nature string "serious" (which is not a key
of `NATURES_DATA`, hence computes with the all-1.0 fallback dict —
exactly the configuration the repository test suite uses). -/
def mkNeutralMon (species : String) (bs : StatMap Int)
    (types : List String) : PokemonInstance :=
  pokemonInstanceInit species 100 (some bs) none none "serious" none none
    none (some types)

/-- The concrete scenario of the spec (and of
`tests/core_logic/test_pokemon_object.py`): level 100, base stats
hp 35 / atk 55 / def 40 / spa 50 / spd 50 / spe 90, IV 31, EV 0,
neutral nature "serious". -/
def pikachuScenario : PokemonInstance :=
  mkNeutralMon "Pikachu" ⟨35, 55, 40, 50, 50, 90⟩ ["electric"]

/-- The same creature with the canonical capitalised nature "Adamant",
which is a key of `NATURES_DATA`. -/
def adamantPikachu : PokemonInstance :=
  { pikachuScenario with nature := "Adamant" }

/-- A creature whose base HP stat is 1 (the Shedinja case), level 100,
IV 31, EV 0, neutral unknown nature. -/
def shedinjaLike : PokemonInstance :=
  mkNeutralMon "Shedinja" ⟨1, 90, 45, 30, 30, 40⟩ ["bug", "ghost"]

/-- A constructor call with wildly out-of-range stats: an IV of 40
(outside [0,31]) and per-stat EVs of 300 (outside [0,252]) totalling 900
(above 510). -/
def invalidStatsInstance : PokemonInstance :=
  pokemonInstanceInit "Mewtwo" 100 none (some ⟨40, 31, 31, 31, 31, 31⟩)
    (some ⟨300, 300, 300, 0, 0, 0⟩) "serious"

/-- A bulky defender used in the damage-formula scenarios. -/
def bulkyDefender : PokemonInstance :=
  mkNeutralMon "Gyarados" ⟨95, 125, 79, 60, 100, 81⟩ ["water", "flying"]

/-- The `pikachuScenario` attacker after external code executed
`attacker.status = "burn"`, as `test_status_effects` does. -/
def burnedAttacker : PokemonInstance :=
  { pikachuScenario with status := some (some "burn") }

/-- An attacker whose `status` attribute has been set to `None` (as
`test_status_effects` leaves it), so that `_calculate_status_modifier`
short-circuits to 1.0 and `calculate_damage` can return. -/
def statusNoneAttacker : PokemonInstance :=
  { pikachuScenario with status := some none }

/-- A pure-ground defender: electric moves hit it with type
effectiveness 0. -/
def groundDefender : PokemonInstance :=
  { mkNeutralMon "Golem" ⟨80, 120, 130, 55, 65, 45⟩ ["ground"] with
    status := some none }

/-- The same attacker with the ability "technician", whose power-60
threshold makes the ability modifier depend on the move power. -/
def technicianAttacker : PokemonInstance :=
  { statusNoneAttacker with ability := some "technician" }

/-- A creature with base speed 100 used in the allocator scenarios. -/
def speedMon : PokemonInstance :=
  mkNeutralMon "Zapdos" ⟨90, 90, 85, 125, 90, 100⟩ ["electric", "flying"]

/-- A caller-fixed EV map committing 252 EVs to speed (in budget:
each stat is within [0,252] and the total is 252). -/
def fixedSpeEvs : StatMap Int := ⟨0, 0, 0, 0, 0, 252⟩

/-- A custom goal asking for a final speed stat of only 50. -/
def lowSpeedGoal : EVOptimizationGoal :=
  { type := "custom", stat := some .spe, value := some 50, priority := 1 }

/-- A caller-fixed EV map that already violates the budget:
600 EVs on HP alone. -/
def overBudgetFixed : StatMap Int := ⟨600, 0, 0, 0, 0, 0⟩

/-- The in-budget predicate of the spec for an EV spread: every stat in
[0, 252] and the total at most 510. -/
def ValidEvSpread (m : StatMap Int) : Prop :=
  0 ≤ m.hp ∧ m.hp ≤ 252 ∧ 0 ≤ m.atk ∧ m.atk ≤ 252 ∧
  0 ≤ m.de ∧ m.de ≤ 252 ∧ 0 ≤ m.spa ∧ m.spa ≤ 252 ∧
  0 ≤ m.spd ∧ m.spd ≤ 252 ∧ 0 ≤ m.spe ∧ m.spe ≤ 252 ∧ sumEvs m ≤ 510

instance (m : StatMap Int) : Decidable (ValidEvSpread m) := by
  unfold ValidEvSpread
  infer_instance

theorem pyInt_eq_floor {q : Rat} (h : 0 ≤ q) : pyInt q = ⌊q⌋ := if_pos h

theorem pyInt_nonneg {q : Rat} (h : 0 ≤ q) : 0 ≤ pyInt q := by
  rw [pyInt_eq_floor h]
  exact Int.floor_nonneg.mpr h

theorem pyInt_mono {q₁ q₂ : Rat} (h0 : 0 ≤ q₁) (h : q₁ ≤ q₂) :
    pyInt q₁ ≤ pyInt q₂ := by
  rw [pyInt_eq_floor h0, pyInt_eq_floor (le_trans h0 h)]
  exact Int.floor_le_floor h

theorem pyInt_add_int {x : Rat} {n : Int} (hx : 0 ≤ x) (hn : 0 ≤ n) :
    pyInt (x + (n : Rat)) = ⌊x⌋ + n := by
  rw [pyInt_eq_floor (by positivity), Int.floor_add_int]

theorem statBaseExpr_nonneg {p : PokemonInstance} {s : Stat}
    (hb : 0 ≤ p.base_stats.get s) (hi : 0 ≤ p.iv.get s)
    (he : 0 ≤ p.ev.get s) (hl : 0 ≤ p.level) :
    0 ≤ statBaseExpr p s := by
  unfold statBaseExpr
  have h1 : (0 : Int) ≤ 2 * p.base_stats.get s + p.iv.get s +
      (p.ev.get s) / 4 := by omega
  have h2 : (0 : Rat) ≤ ((2 * p.base_stats.get s + p.iv.get s +
      (p.ev.get s) / 4 : Int) : Rat) := by exact_mod_cast h1
  have h3 : (0 : Rat) ≤ ((p.level : Int) : Rat) := by exact_mod_cast hl
  positivity

theorem mem_keys_of_lookupStr_isSome {α : Type} :
    ∀ (l : List (String × α)) (k : String),
      (lookupStr l k).isSome = true → k ∈ l.map Prod.fst
  | [], _, h => by simp [lookupStr] at h
  | (k₀, v₀) :: rest, k, h => by
    by_cases hk : k = k₀
    · simp [hk]
    · simp only [lookupStr, if_neg hk] at h
      simpa [hk] using mem_keys_of_lookupStr_isSome rest k h

theorem calculate_stats_of_unknown_nature (p : PokemonInstance)
    (h : lookupStr naturesData p.nature = none) :
    calculate_stats p =
      .ok ⟨pyInt (statBaseExpr p .hp + (p.level : Rat) + 10),
           pyInt ((statBaseExpr p .atk + 5) * 1),
           pyInt ((statBaseExpr p .de + 5) * 1),
           pyInt ((statBaseExpr p .spa + 5) * 1),
           pyInt ((statBaseExpr p .spd + 5) * 1),
           pyInt ((statBaseExpr p .spe + 5) * 1)⟩ := by
  simp [calculate_stats, nonHpStat, natureModifier, h, bind, Except.bind,
    Except.map, pure, Except.pure]

theorem mem_snd_of_lookupStr {α : Type} :
    ∀ (l : List (String × α)) (k : String) (v : α),
      lookupStr l k = some v → v ∈ l.map Prod.snd
  | [], _, _, h => by simp [lookupStr] at h
  | (k₀, v₀) :: rest, k, v, h => by
    by_cases hk : k = k₀
    · simp only [lookupStr, if_pos hk, Option.some.injEq] at h
      simp [h]
    · simp only [lookupStr, if_neg hk] at h
      simpa using Or.inr (mem_snd_of_lookupStr rest k v h)

theorem typeEffectiveness_rows_nonneg :
    ∀ row ∈ typeEffectiveness.map Prod.snd, ∀ x ∈ row.map Prod.snd,
      (0 : Rat) ≤ x := by
  intro row hrow
  simp only [typeEffectiveness, List.map_cons, List.map_nil,
    List.mem_cons, List.not_mem_nil, or_false] at hrow
  rcases hrow with h|h|h|h|h|h|h|h|h|h|h|h|h|h|h|h|h|h <;> subst h <;>
    (intro x hx
     fin_cases hx <;> norm_num)

theorem typeEff_entry_nonneg (mt dt : String) (v : Rat)
    (h : lookupStr ((lookupStr typeEffectiveness mt).getD []) dt = some v) :
    0 ≤ v := by
  rcases hrow : lookupStr typeEffectiveness mt with _ | row
  · rw [hrow] at h
    simp [lookupStr] at h
  · rw [hrow] at h
    exact typeEffectiveness_rows_nonneg row
      (mem_snd_of_lookupStr typeEffectiveness mt row hrow) v
      (mem_snd_of_lookupStr row dt v h)

theorem calculateTypeEffectiveness_nonneg (mt : String)
    (d : PokemonInstance) : 0 ≤ calculateTypeEffectiveness mt d := by
  unfold calculateTypeEffectiveness
  have aux : ∀ (ts : List String) (acc : Rat), 0 ≤ acc →
      0 ≤ ts.foldl
        (fun acc dt =>
          match (lookupStr typeEffectiveness mt).getD [] |> (lookupStr · dt) with
          | some v => acc * v
          | none => acc) acc := by
    intro ts
    induction ts with
    | nil => intro acc h; simpa using h
    | cons dt ts ih =>
      intro acc h
      simp only [List.foldl_cons]
      rcases hv : lookupStr ((lookupStr typeEffectiveness mt).getD []) dt
        with _ | v
      · simpa [hv] using ih acc h
      · have := typeEff_entry_nonneg mt dt v hv
        simpa [hv] using ih _ (mul_nonneg h this)
  exact aux d.types 1 (by norm_num)

theorem calculateStab_nonneg (a : PokemonInstance) (mt : String) :
    0 ≤ calculateStab a mt := by
  unfold calculateStab
  split <;> [skip; norm_num]
  split <;> norm_num

theorem getD_one_nonneg (l : List (String × Rat))
    (h : ∀ x ∈ l.map Prod.snd, (0 : Rat) ≤ x) (k : String) :
    0 ≤ (lookupStr l k).getD 1 := by
  rcases hv : lookupStr l k with _ | v
  · norm_num
  · simpa using h v (mem_snd_of_lookupStr l k v hv)

theorem calculateWeatherModifier_nonneg (mt : String) (w : Option String) :
    0 ≤ calculateWeatherModifier mt w := by
  rcases w with _ | ws
  · norm_num [calculateWeatherModifier]
  · rcases htbl : lookupStr weatherBoost ws with _ | tbl
    · norm_num [calculateWeatherModifier, htbl]
    · have heq : calculateWeatherModifier mt (some ws) =
          (lookupStr tbl mt).getD 1 := by
        simp [calculateWeatherModifier, htbl]
      rw [heq]
      have hmem := mem_snd_of_lookupStr weatherBoost ws tbl htbl
      refine getD_one_nonneg tbl ?_ mt
      simp only [weatherBoost, List.map_cons, List.map_nil, List.mem_cons,
        List.not_mem_nil, or_false] at hmem
      rcases hmem with h|h|h|h <;> subst h <;>
        (intro x hx
         fin_cases hx <;> norm_num)

theorem calculateFieldModifier_nonneg (mt : String) (f : Option String) :
    0 ≤ calculateFieldModifier mt f := by
  rcases f with _ | fs
  · norm_num [calculateFieldModifier]
  · rcases htbl : lookupStr fieldBoost fs with _ | tbl
    · norm_num [calculateFieldModifier, htbl]
    · have heq : calculateFieldModifier mt (some fs) =
          (lookupStr tbl mt).getD 1 := by
        simp [calculateFieldModifier, htbl]
      rw [heq]
      have hmem := mem_snd_of_lookupStr fieldBoost fs tbl htbl
      refine getD_one_nonneg tbl ?_ mt
      simp only [fieldBoost, List.map_cons, List.map_nil, List.mem_cons,
        List.not_mem_nil, or_false] at hmem
      rcases hmem with h|h|h|h <;>
        (subst h
         intro x hx
         fin_cases hx
         all_goals norm_num)

theorem calculateAbilityModifier_nonneg (a : PokemonInstance) (mt : String)
    (mp : Int) (eff : Rat) : 0 ≤ calculateAbilityModifier a mt mp eff := by
  unfold calculateAbilityModifier
  rcases a.ability with _ | ab
  · norm_num
  · dsimp only
    split <;> [norm_num; skip]
    split <;> [norm_num; skip]
    split <;> norm_num

theorem calculateItemModifier_nonneg (a : PokemonInstance) (mt : String) :
    0 ≤ calculateItemModifier a mt := by
  unfold calculateItemModifier
  rcases a.item with _ | it
  · norm_num
  · dsimp only
    refine getD_one_nonneg _ ?_ it.toLower
    intro x hx
    simp only [List.map_cons, List.map_nil, List.mem_cons,
      List.not_mem_nil, or_false] at hx
    rcases hx with h|h|h|h|h|h|h <;> subst h <;>
      first
      | (split <;> norm_num)
      | norm_num

theorem calculateStatusModifier_ok (a : PokemonInstance) (x : Rat)
    (h : calculateStatusModifier a = .ok x) : x = 1 := by
  unfold calculateStatusModifier at h
  rcases hs : a.status with _ | st <;> (rw [hs] at h; dsimp only at h)
  · cases h
  · by_cases hb : st = some "burn"
    · rw [if_pos hb] at h
      cases h
    · rw [if_neg hb] at h
      exact (Except.ok.inj h).symm

theorem pikachu_stats_eq :
    calculate_stats pikachuScenario = .ok ⟨211, 146, 116, 136, 136, 216⟩ := by
  rw [calculate_stats_of_unknown_nature pikachuScenario (by rfl)]
  norm_num [pyInt, statBaseExpr, StatMap.get, pikachuScenario, mkNeutralMon,
    pokemonInstanceInit, StatMap.const, Option.getD]

theorem bulky_stats_eq :
    calculate_stats bulkyDefender = .ok ⟨331, 286, 194, 156, 236, 198⟩ := by
  rw [calculate_stats_of_unknown_nature bulkyDefender (by rfl)]
  norm_num [pyInt, statBaseExpr, StatMap.get, bulkyDefender, mkNeutralMon,
    pokemonInstanceInit, StatMap.const, Option.getD]

theorem burned_stats_eq :
    calculate_stats burnedAttacker = .ok ⟨211, 146, 116, 136, 136, 216⟩ := by
  rw [calculate_stats_of_unknown_nature burnedAttacker (by rfl)]
  norm_num [pyInt, statBaseExpr, StatMap.get, burnedAttacker, pikachuScenario,
    mkNeutralMon, pokemonInstanceInit, StatMap.const, Option.getD]

theorem statusNone_stats_eq :
    calculate_stats statusNoneAttacker = .ok ⟨211, 146, 116, 136, 136, 216⟩ := by
  rw [calculate_stats_of_unknown_nature statusNoneAttacker (by rfl)]
  norm_num [pyInt, statBaseExpr, StatMap.get, statusNoneAttacker,
    pikachuScenario, mkNeutralMon, pokemonInstanceInit, StatMap.const,
    Option.getD]

theorem ground_stats_eq :
    calculate_stats groundDefender = .ok ⟨301, 276, 296, 146, 166, 126⟩ := by
  rw [calculate_stats_of_unknown_nature groundDefender (by rfl)]
  norm_num [pyInt, statBaseExpr, StatMap.get, groundDefender, mkNeutralMon,
    pokemonInstanceInit, StatMap.const, Option.getD]

theorem technician_stats_eq :
    calculate_stats technicianAttacker = .ok ⟨211, 146, 116, 136, 136, 216⟩ := by
  rw [calculate_stats_of_unknown_nature technicianAttacker (by rfl)]
  norm_num [pyInt, statBaseExpr, StatMap.get, technicianAttacker,
    statusNoneAttacker, pikachuScenario, mkNeutralMon, pokemonInstanceInit,
    StatMap.const, Option.getD]

theorem StatMap.get_set {α : Type} (m : StatMap α) (s t : Stat) (v : α) :
    (m.set s v).get t = if t = s then v else m.get t := by
  cases s <;> cases t <;> simp [StatMap.set, StatMap.get]

theorem sumEvs_set (m : StatMap Int) (s : Stat) (v : Int) :
    sumEvs (m.set s v) = sumEvs m - m.get s + v := by
  cases s <;> simp [StatMap.set, StatMap.get, sumEvs] <;> ring

theorem optimizeSurvival_ne_ok (pokemon : PokemonInstance)
    (attacker : Option PokemonInstance) (move : Option String)
    (evs : StatMap Int) (remaining : Int) (evs2 : StatMap Int) :
    optimizeSurvival pokemon attacker move evs remaining ≠ .ok evs2 := by
  unfold optimizeSurvival
  rcases attacker with _ | att
  · simp
  · rcases h1 : calculate_stats att with e | s1 <;>
      simp [h1, bind, Except.bind]
    rcases h2 : calculate_stats pokemon with e | s2 <;>
      simp [h2, bind, Except.bind]
    by_cases h3 : pokemon.types = []
    · simp only [h3, ne_eq, not_true_eq_false, if_false, ite_false]
      by_cases h4 : att.ability = some "technician"
      · simp [h4]
      · simp only [h4, if_false, ite_false]
        rcases h5 : calculateStatusModifier att with e | x <;>
          simp [h5, bind, Except.bind]
    · simp [h3]

theorem optimizeOhko_ne_ok (pokemon : PokemonInstance)
    (target : Option PokemonInstance) (move : Option String)
    (evs : StatMap Int) (remaining : Int) (evs2 : StatMap Int) :
    optimizeOhko pokemon target move evs remaining ≠ .ok evs2 := by
  unfold optimizeOhko
  rcases target with _ | tgt
  · simp
  · rcases h1 : calculate_stats pokemon with e | s1 <;>
      simp [h1, bind, Except.bind]
    rcases h2 : calculate_stats tgt with e | s2 <;>
      simp [h2, bind, Except.bind]
    by_cases h3 : tgt.types = []
    · simp only [h3, ne_eq, not_true_eq_false, if_false, ite_false]
      by_cases h4 : pokemon.ability = some "technician"
      · simp [h4]
      · simp only [h4, if_false, ite_false]
        rcases h5 : calculateStatusModifier pokemon with e | x <;>
          simp [h5, bind, Except.bind]
    · simp [h3]

theorem requiredEvs_bounds (pokemon : PokemonInstance) (s : Stat)
    (v : Option Rat) (x : Int)
    (h : calculateRequiredEvsForStat pokemon s v = .ok x) :
    0 ≤ x ∧ x ≤ 252 := by
  unfold calculateRequiredEvsForStat at h
  rcases v with _ | tv
  · cases h
  · dsimp only at h
    split at h
    · cases h
    · obtain rfl := (Except.ok.inj h).symm
      constructor
      · exact le_max_left 0 _
      · have : min (pyInt (((tv / statNatureMult pokemon s - 5) * 100 /
            ((pokemon.base_stats.get s : Int) : Rat) -
            2 * ((pokemon.base_stats.get s : Int) : Rat) -
            ((pokemon.iv.get s : Int) : Rat)) * 4)) 252 ≤ 252 :=
          min_le_right _ _
        omega

theorem applyGoal_ok_cases (pokemon : PokemonInstance)
    (g : EVOptimizationGoal) (evs : StatMap Int) (remaining : Int)
    (evs2 : StatMap Int) (hrem : 0 < remaining)
    (h : applyGoal pokemon g evs remaining = .ok evs2) :
    evs2 = evs ∨ ∃ s v, g.type = "custom" ∧ g.stat = some s ∧
      evs2 = evs.set s v ∧ 0 ≤ v ∧ v ≤ 252 ∧ v ≤ remaining := by
  unfold applyGoal at h
  by_cases h1 : g.type = "survive"
  · rw [if_pos h1] at h
    exact absurd h (optimizeSurvival_ne_ok _ _ _ _ _ _)
  rw [if_neg h1] at h
  by_cases h2 : g.type = "ohko"
  · rw [if_pos h2] at h
    exact absurd h (optimizeOhko_ne_ok _ _ _ _ _ _)
  rw [if_neg h2] at h
  by_cases h3 : g.type = "2hko"
  · rw [if_pos h3] at h
    exact absurd h (optimizeOhko_ne_ok _ _ _ _ _ _)
  rw [if_neg h3] at h
  by_cases h4 : g.type = "outspeed"
  · rw [if_pos h4] at h
    cases h
  rw [if_neg h4] at h
  by_cases h5 : g.type = "custom"
  · rw [if_pos h5] at h
    unfold optimizeCustom at h
    rcases hstat : g.stat with _ | s
    · rw [hstat] at h
      cases h
    · rw [hstat] at h
      dsimp only at h
      rcases hreq : calculateRequiredEvsForStat pokemon s g.value
        with e | req <;> rw [hreq] at h <;>
        simp only [bind, Except.bind, pure, Except.pure] at h
      · cases h
      · obtain ⟨hreq0, hreq252⟩ := requiredEvs_bounds pokemon s g.value req hreq
        right
        by_cases hle : req ≤ remaining
        · rw [if_pos hle] at h
          obtain rfl := (Except.ok.inj h).symm
          exact ⟨s, min req 252, h5, rfl, rfl, by omega, by omega, by omega⟩
        · rw [if_neg hle] at h
          obtain rfl := (Except.ok.inj h).symm
          exact ⟨s, min remaining 252, h5, rfl, rfl, by omega, by omega,
            by omega⟩
  · rw [if_neg h5] at h
    exact Or.inl (Except.ok.inj h).symm

theorem processGoals_ok_invariants (pokemon : PokemonInstance) :
    ∀ (gs : List EVOptimizationGoal) (evs evs' : StatMap Int),
      processGoals pokemon gs evs = .ok evs' →
      ((∀ t, 0 ≤ evs.get t ∧ evs.get t ≤ 252) → sumEvs evs ≤ 510 →
        (∀ t, 0 ≤ evs'.get t ∧ evs'.get t ≤ 252) ∧ sumEvs evs' ≤ 510) ∧
      (∀ s, (∀ g ∈ gs, ¬(g.type = "custom" ∧ g.stat = some s)) →
        evs'.get s = evs.get s) := by
  intro gs
  induction gs with
  | nil =>
    intro evs evs' hok
    rw [processGoals] at hok
    obtain rfl := (Except.ok.inj hok)
    exact ⟨fun h1 h2 => ⟨h1, h2⟩, fun s _ => rfl⟩
  | cons g gs ih =>
    intro evs evs' hok
    rw [processGoals] at hok
    by_cases hrem : 510 - sumEvs evs ≤ 0
    · rw [if_pos hrem] at hok
      obtain rfl := (Except.ok.inj hok)
      exact ⟨fun h1 h2 => ⟨h1, h2⟩, fun s _ => rfl⟩
    · rw [if_neg hrem] at hok
      rcases hg : applyGoal pokemon g evs (510 - sumEvs evs) with e | evs2 <;>
        rw [hg] at hok <;> simp only [bind, Except.bind] at hok
      · cases hok
      · have hrem' : 0 < 510 - sumEvs evs := by omega
        have hcases := applyGoal_ok_cases pokemon g evs _ evs2 hrem' hg
        obtain ⟨ihb, ihp⟩ := ih evs2 evs' hok
        constructor
        · intro h1 h2
          rcases hcases with rfl | ⟨s, v, _, _, rfl, hv0, hv252, hvrem⟩
          · exact ihb h1 h2
          · refine ihb ?_ ?_
            · intro t
              rw [StatMap.get_set]
              by_cases hts : t = s
              · rw [if_pos hts]
                omega
              · rw [if_neg hts]
                exact h1 t
            · rw [sumEvs_set]
              have := (h1 s).1
              omega
        · intro s hs
          have hnotg := hs g (by simp)
          have hrest : ∀ g' ∈ gs, ¬(g'.type = "custom" ∧ g'.stat = some s) :=
            fun g' hg' => hs g' (by simp [hg'])
          rw [ihp s hrest]
          rcases hcases with rfl | ⟨t, v, hty, hst, rfl, _, _, _⟩
          · rfl
          · rw [StatMap.get_set]
            have hne : s ≠ t := by
              intro hcontra
              exact hnotg ⟨hty, by rw [hst, hcontra]⟩
            rw [if_neg hne]

theorem speedMon_lowgoal_run :
    optimize_evs speedMon [lowSpeedGoal] (some fixedSpeEvs) =
      .ok ⟨0, 0, 0, 0, 0, 0⟩ := by
  simp [optimize_evs, sortGoalsDesc, List.mergeSort_singleton, processGoals,
    sumEvs, fixedSpeEvs, applyGoal, lowSpeedGoal, optimizeCustom,
    calculateRequiredEvsForStat, statNatureMult, positiveNatures,
    negativeNatures, speedMon, mkNeutralMon, pokemonInstanceInit,
    StatMap.get, StatMap.set, StatMap.const, Option.getD, bind,
    Except.bind, pure, Except.pure]
  norm_num [pyInt, Int.ceil_le]

/-- Claim C1 (counterexample): the claimed budget invariant fails as
stated, because a caller-fixed EV map is used as the starting allocation
without any validation.  With 600 fixed HP EVs and an empty goal list,
`optimize_evs` returns that very map, whose total (600) exceeds 510 and
whose HP entry (600) exceeds 252. -/
theorem optimize_evs_overbudget_passthrough :
    optimize_evs speedMon [] (some overBudgetFixed) = .ok overBudgetFixed ∧
    sumEvs overBudgetFixed = 600 ∧ overBudgetFixed.hp = 600 ∧
    ¬(sumEvs overBudgetFixed ≤ 510) ∧ ¬(overBudgetFixed.hp ≤ 252) := by
  refine ⟨?_, rfl, rfl, by decide, by decide⟩
  simp [optimize_evs, sortGoalsDesc, List.mergeSort_nil, processGoals,
    Option.getD]

/-- Claim C1 (amended): whenever the caller-fixed EV map (or the all-zero
default) is itself in budget — each stat in [0, 252] and total at most
510 — every allocation `optimize_evs` returns without raising satisfies
the budget invariant: total at most 510 and every stat at most 252. -/
theorem optimize_evs_budget_invariant (pokemon : PokemonInstance)
    (goals : List EVOptimizationGoal) (fixed_evs : Option (StatMap Int))
    (evs' : StatMap Int)
    (hfix : ValidEvSpread (fixed_evs.getD (StatMap.const 0)))
    (hok : optimize_evs pokemon goals fixed_evs = .ok evs') :
    sumEvs evs' ≤ 510 ∧ evs'.hp ≤ 252 ∧ evs'.atk ≤ 252 ∧ evs'.de ≤ 252 ∧
      evs'.spa ≤ 252 ∧ evs'.spd ≤ 252 ∧ evs'.spe ≤ 252 := by
  unfold optimize_evs at hok
  obtain ⟨h1, h2, h3, h4, h5, h6, h7, h8, h9, h10, h11, h12, h13⟩ := hfix
  obtain ⟨hper, hsum⟩ :=
    ((processGoals_ok_invariants pokemon (sortGoalsDesc goals) _ evs' hok).1
      (fun t => by cases t <;> exact ⟨by assumption, by assumption⟩) h13)
  exact ⟨hsum, (hper .hp).2, (hper .atk).2, (hper .de).2, (hper .spa).2,
    (hper .spd).2, (hper .spe).2⟩

/-- Witness for C1: the budget invariant theorem applied to the empty goal
list with no fixed EVs. -/
theorem optimize_evs_budget_invariant_witness :
    sumEvs (StatMap.const 0) ≤ 510 ∧
    (StatMap.const 0 : StatMap Int).hp ≤ 252 ∧
    (StatMap.const 0 : StatMap Int).atk ≤ 252 ∧
    (StatMap.const 0 : StatMap Int).de ≤ 252 ∧
    (StatMap.const 0 : StatMap Int).spa ≤ 252 ∧
    (StatMap.const 0 : StatMap Int).spd ≤ 252 ∧
    (StatMap.const 0 : StatMap Int).spe ≤ 252 :=
  optimize_evs_budget_invariant speedMon [] none (StatMap.const 0)
    (by decide)
    (by simp [optimize_evs, sortGoalsDesc, List.mergeSort_nil, processGoals,
      Option.getD])

/-- Claim C2: `calculate_damage` never terminates normally.  On an
instance built by the constructor the status-modifier step reads the
missing `status` attribute and raises `AttributeError`; after external
code sets `status = "burn"` (the very case the claim describes) the
burn branch evaluates the unbound name `move_type` and raises
`NameError`.  The 0.5 burn factor is unreachable, refuting the claimed
`integer ≥ 0` contract on every input. -/
theorem calculate_damage_never_returns :
    calculate_damage pikachuScenario bulkyDefender "Tackle" "normal" 80
      = .error .attributeError ∧
    calculate_damage burnedAttacker bulkyDefender "Tackle" "normal" 80
      = .error .nameError := by
  have h1 : calculateStatusModifier pikachuScenario = .error .attributeError := rfl
  have h2 : calculateStatusModifier burnedAttacker = .error .nameError := rfl
  constructor <;>
    simp [calculate_damage, getAttackDefenseStats, specialTypes,
      pikachu_stats_eq, bulky_stats_eq, burned_stats_eq, h1, h2,
      bind, Except.bind, pure, Except.pure]

/-- Claim C3 (counterexample): the claim quantifies over every valid
nature, but for the canonical nature "Adamant" (a key of the nature
table) `calculate_stats` raises `KeyError` instead of returning the
spec formula value, so the claimed equation holds for no stat there. -/
theorem calculate_stats_adamant_raises :
    calculate_stats adamantPikachu = .error .keyError := by
  simp [adamantPikachu, pikachuScenario, mkNeutralMon, pokemonInstanceInit,
    calculate_stats, nonHpStat, natureModifier, lookupStr, lookupStat,
    naturesData, bind, Except.bind, Except.map]

/-- Claim C3 (amended): on the only inputs where `calculate_stats`
returns — nature strings absent from the table, where the multiplier is
the neutral 1.0 — every non-HP stat equals the spec formula
`floor((floor((2*base + iv + floor(ev/4)) * level / 100) + 5) * mult)`
with `mult = 1`; the double flooring is indistinguishable from the code
single `int()` truncation only because the boosted and reduced
multipliers are unreachable. -/
theorem nonhp_matches_spec_formula (p : PokemonInstance) (s : Stat)
    (hs : s ≠ .hp) (hn : lookupStr naturesData p.nature = none)
    (hb : 0 ≤ p.base_stats.get s) (hi : 0 ≤ p.iv.get s)
    (he : 0 ≤ p.ev.get s) (hl : 0 ≤ p.level) (m : StatMap Int)
    (hok : calculate_stats p = .ok m) :
    m.get s = specNonHpStat (p.base_stats.get s) (p.iv.get s)
      (p.ev.get s) p.level 1 := by
  rw [calculate_stats_of_unknown_nature p hn] at hok
  obtain rfl := (Except.ok.inj hok)
  have hx : 0 ≤ statBaseExpr p s := statBaseExpr_nonneg hb hi he hl
  have key : pyInt ((statBaseExpr p s + 5) * 1) =
      specNonHpStat (p.base_stats.get s) (p.iv.get s) (p.ev.get s)
        p.level 1 := by
    have h5 : ((5 : Int) : Rat) = 5 := by norm_num
    rw [mul_one,
      show statBaseExpr p s + 5 = statBaseExpr p s + ((5 : Int) : Rat) by
        rw [h5]]
    rw [pyInt_add_int hx (by norm_num)]
    simp only [specNonHpStat, mul_one, Int.floor_intCast]
    rfl
  cases s with
  | hp => exact absurd rfl hs
  | atk => simpa [StatMap.get] using key
  | de => simpa [StatMap.get] using key
  | spa => simpa [StatMap.get] using key
  | spd => simpa [StatMap.get] using key
  | spe => simpa [StatMap.get] using key

/-- Witness for C3: the amended formula theorem applied to the attack
stat of the concrete level-100 scenario. -/
theorem nonhp_matches_spec_formula_witness :
    (⟨211, 146, 116, 136, 136, 216⟩ : StatMap Int).get .atk =
      specNonHpStat 55 31 0 100 1 :=
  nonhp_matches_spec_formula pikachuScenario .atk (by decide) (by rfl)
    (by decide) (by decide) (by decide) (by decide) _
    (by rw [calculate_stats_of_unknown_nature pikachuScenario (by rfl)]
        norm_num [pyInt, statBaseExpr, StatMap.get, pikachuScenario,
          mkNeutralMon, pokemonInstanceInit, StatMap.const, Option.getD])

/-- Claim C4: for every instance whose nature is a key of the nature
table, `calculate_stats` raises `KeyError` (each per-nature dict omits at
least three of the five non-HP stats indexed by the loop); and for every
instance whose nature is absent from the table (falling back to the
all-1.0 dict) the computation succeeds. -/
theorem calculate_stats_nature_dichotomy (p : PokemonInstance) :
    ((lookupStr naturesData p.nature).isSome = true →
      calculate_stats p = .error .keyError) ∧
    (lookupStr naturesData p.nature = none →
      (calculate_stats p).isOk = true) := by
  constructor
  · intro h
    have hmem := mem_keys_of_lookupStr_isSome naturesData p.nature h
    simp only [naturesData, List.map, List.mem_cons, List.not_mem_nil,
      or_false] at hmem
    rcases hmem with h|h|h|h|h|h|h|h|h|h|h|h|h|h|h|h|h|h|h|h|h|h|h|h|h <;>
      simp [calculate_stats, nonHpStat, natureModifier, lookupStr, lookupStat,
        naturesData, h, bind, Except.bind, Except.map]
  · intro h
    rw [calculate_stats_of_unknown_nature p h]
    rfl

/-- Witness for C4: the dichotomy applied to the concrete "Adamant"
instance (a table key), producing the `KeyError`. -/
theorem calculate_stats_nature_dichotomy_witness :
    calculate_stats adamantPikachu = .error .keyError :=
  (calculate_stats_nature_dichotomy adamantPikachu).1 (by rfl)

/-- Claim C5: the concrete level-100 scenario of the spec — base stats
hp 35 / atk 55 / def 40 / spa 50 / spd 50 / spe 90, IV 31, EV 0, neutral
nature "serious" — computes exactly hp 211, atk 146, def 116, spa 136,
spd 136, spe 216. -/
theorem calculate_stats_concrete_scenario :
    calculate_stats pikachuScenario =
      .ok ⟨211, 146, 116, 136, 136, 216⟩ := by
  rw [calculate_stats_of_unknown_nature pikachuScenario (by rfl)]
  norm_num [pyInt, statBaseExpr, StatMap.get, pikachuScenario, mkNeutralMon,
    pokemonInstanceInit, StatMap.const, Option.getD]

/-- Claim C6 (counterexample): the stats entering the base term are not
selected by move category — the source has no category input at all.  A
fire-type move always uses the attacker spa against the defender spd,
even though physical fire moves exist (e.g. Fire Punch, category
Physical in Gen 7), for which the claim requires atk (146) against def
(194); the code instead supplies (136, 236). -/
theorem fire_move_uses_special_stats :
    getAttackDefenseStats pikachuScenario bulkyDefender "fire" =
      .ok (136, 236) ∧
    (calculate_stats pikachuScenario).map (fun m => (m.atk, m.de)) =
      .ok (146, 116) ∧
    ((136 : Int), (236 : Int)) ≠ ((146 : Int), (194 : Int)) := by
  refine ⟨?_, ?_, by decide⟩
  · simp [getAttackDefenseStats, specialTypes, pikachu_stats_eq,
      bulky_stats_eq, bind, Except.bind, pure, Except.pure]
  · simp [pikachu_stats_eq, Except.map]

/-- Claim C6 (amended): whenever `_get_attack_defense_stats` returns, the
pair is selected by membership of the move type in the fixed special-type
list — spa against spd for a special-listed type, atk against def
otherwise — always from the final computed stats of the two sides. -/
theorem getAttackDefense_selected_by_type (a d : PokemonInstance)
    (mt : String) (x y : Int)
    (h : getAttackDefenseStats a d mt = .ok (x, y)) :
    ∃ sa sd, calculate_stats a = .ok sa ∧ calculate_stats d = .ok sd ∧
      ((mt ∈ specialTypes ∧ x = sa.spa ∧ y = sd.spd) ∨
       (mt ∉ specialTypes ∧ x = sa.atk ∧ y = sd.de)) := by
  by_cases hmem : mt ∈ specialTypes <;>
    rcases ha : calculate_stats a with e | sa <;>
      rcases hd : calculate_stats d with e2 | sd <;>
        simp [getAttackDefenseStats, hmem, ha, hd, bind, Except.bind, pure,
          Except.pure] at h <;>
        exact ⟨sa, sd, rfl, rfl, by simp [hmem, h.1, h.2]⟩

/-- Witness for C6: the selection theorem applied to a fire-type move
between the two concrete creatures. -/
theorem getAttackDefense_selected_by_type_witness :
    ∃ sa sd, calculate_stats pikachuScenario = .ok sa ∧
      calculate_stats bulkyDefender = .ok sd ∧
      (("fire" ∈ specialTypes ∧ (136 : Int) = sa.spa ∧ (236 : Int) = sd.spd) ∨
       ("fire" ∉ specialTypes ∧ (136 : Int) = sa.atk ∧ (236 : Int) = sd.de)) :=
  getAttackDefense_selected_by_type pikachuScenario bulkyDefender "fire"
    136 236
    (by simp [getAttackDefenseStats, specialTypes, pikachu_stats_eq,
      bulky_stats_eq, bind, Except.bind, pure, Except.pure])

/-- Claim C7 (counterexample): `calculate_stats` contains no base-HP-1
exception: a level-100 creature with base HP 1, IV 31 and EV 0 gets
HP `int((2*1 + 31 + 0) * 100 / 100 + 100 + 10) = 143`, not the claimed
fixed value 1. -/
theorem base_one_hp_is_143 :
    calculate_stats shedinjaLike = .ok ⟨143, 216, 126, 96, 96, 116⟩ ∧
      (143 : Int) ≠ 1 := by
  constructor
  · rw [calculate_stats_of_unknown_nature shedinjaLike (by rfl)]
    norm_num [pyInt, statBaseExpr, StatMap.get, shedinjaLike, mkNeutralMon,
      pokemonInstanceInit, StatMap.const, Option.getD]
  · decide

/-- Claim C7 (amended): a base HP of 1 is given no special treatment —
the HP entry is always the general formula
`floor((2*1 + iv + floor(ev/4)) * level / 100) + level + 10`
(for the succeeding, unknown-nature inputs with non-negative fields). -/
theorem hp_general_formula_at_base_one (p : PokemonInstance)
    (hbase : p.base_stats.get .hp = 1)
    (hn : lookupStr naturesData p.nature = none)
    (hi : 0 ≤ p.iv.get .hp) (he : 0 ≤ p.ev.get .hp) (hl : 0 ≤ p.level)
    (m : StatMap Int) (hok : calculate_stats p = .ok m) :
    m.get .hp =
      ⌊((2 + p.iv.get .hp + p.ev.get .hp / 4 : Int) : Rat) *
        (p.level : Rat) / 100⌋ + p.level + 10 := by
  rw [calculate_stats_of_unknown_nature p hn] at hok
  obtain rfl := (Except.ok.inj hok)
  show pyInt (statBaseExpr p .hp + (p.level : Rat) + 10) = _
  have hx : 0 ≤ statBaseExpr p .hp :=
    statBaseExpr_nonneg (by rw [hbase]; norm_num) hi he hl
  have hcast : statBaseExpr p .hp + (p.level : Rat) + 10 =
      statBaseExpr p .hp + ((p.level + 10 : Int) : Rat) := by
    push_cast
    ring
  rw [hcast, pyInt_add_int hx (by omega)]
  rw [statBaseExpr, hbase]
  push_cast
  ring_nf

/-- Witness for C7: the general-formula theorem applied to the concrete
base-HP-1 creature, giving 143. -/
theorem hp_general_formula_at_base_one_witness :
    (⟨143, 216, 126, 96, 96, 116⟩ : StatMap Int).get .hp =
      ⌊((2 + 31 + (0 : Int) / 4 : Int) : Rat) * (100 : Rat) / 100⌋ +
        100 + 10 :=
  hp_general_formula_at_base_one shedinjaLike (by decide) (by rfl)
    (by decide) (by decide) (by decide) _
    (by rw [calculate_stats_of_unknown_nature shedinjaLike (by rfl)]
        norm_num [pyInt, statBaseExpr, StatMap.get, shedinjaLike,
          mkNeutralMon, pokemonInstanceInit, StatMap.const, Option.getD])

/-- Claim C8 (counterexample): construction never fails.  An instance
built with an IV of 40 (outside [0,31]) and EVs of 300 per stat totalling
900 (above both 252 and 510) is produced with those exact values stored,
and its stat computation even succeeds; no `InvalidStatsError` exists
anywhere in the repository. -/
theorem construction_accepts_invalid_stats :
    invalidStatsInstance.iv.get .hp = 40 ∧
    invalidStatsInstance.ev.get .hp = 300 ∧
    sumEvs invalidStatsInstance.ev = 900 ∧
    (calculate_stats invalidStatsInstance).isOk = true := by
  refine ⟨rfl, rfl, rfl, ?_⟩
  rw [calculate_stats_of_unknown_nature _ (by rfl)]
  rfl

/-- Claim C8 (amended): `__init__` performs no validation whatsoever —
for every combination of arguments, in range or not, it returns an
instance storing the arguments verbatim. -/
theorem init_is_total_and_unvalidated (species : String) (level : Int)
    (bs iv ev : StatMap Int) (nature : String) (ab it : Option String)
    (mv ty : List String) :
    (pokemonInstanceInit species level (some bs) (some iv) (some ev) nature
        ab it (some mv) (some ty)).level = level ∧
    (pokemonInstanceInit species level (some bs) (some iv) (some ev) nature
        ab it (some mv) (some ty)).base_stats = bs ∧
    (pokemonInstanceInit species level (some bs) (some iv) (some ev) nature
        ab it (some mv) (some ty)).iv = iv ∧
    (pokemonInstanceInit species level (some bs) (some iv) (some ev) nature
        ab it (some mv) (some ty)).ev = ev :=
  ⟨rfl, rfl, rfl, rfl⟩

/-- Claim C9 (counterexample): the solver reduces caller-fixed EVs.  With
252 EVs fixed on speed (an in-budget map) and a single custom goal asking
for a speed stat of only 50, the assignment `evs[stat] = min(required,
252)` overwrites the fixed 252 with 0. -/
theorem optimize_evs_reduces_fixed_spe :
    optimize_evs speedMon [lowSpeedGoal] (some fixedSpeEvs) =
      .ok ⟨0, 0, 0, 0, 0, 0⟩ ∧
    (⟨0, 0, 0, 0, 0, 0⟩ : StatMap Int).spe < fixedSpeEvs.spe :=
  ⟨speedMon_lowgoal_run, by decide⟩

/-- Claim C9 (amended): caller-fixed EVs are preserved only on stats that
no goal in the list targets: if no goal is a custom goal for stat `s`
(the only goal kind that can complete), every successful run returns the
fixed value unchanged on `s`.  A goal targeting `s` instead overwrites
it, possibly below the fixed value. -/
theorem optimize_evs_preserves_untargeted (pokemon : PokemonInstance)
    (goals : List EVOptimizationGoal) (fixed : StatMap Int) (s : Stat)
    (evs' : StatMap Int)
    (hs : ∀ g ∈ goals, ¬(g.type = "custom" ∧ g.stat = some s))
    (hok : optimize_evs pokemon goals (some fixed) = .ok evs') :
    evs'.get s = fixed.get s := by
  unfold optimize_evs at hok
  refine (processGoals_ok_invariants pokemon _ _ evs' hok).2 s ?_
  intro g hg
  exact hs g (List.mem_mergeSort.mp hg)

/-- Witness for C9: the preservation theorem applied to the HP stat in
the concrete run whose only goal targets speed. -/
theorem optimize_evs_preserves_untargeted_witness :
    (⟨0, 0, 0, 0, 0, 0⟩ : StatMap Int).get .hp = fixedSpeEvs.get .hp :=
  optimize_evs_preserves_untargeted speedMon [lowSpeedGoal] fixedSpeEvs .hp
    ⟨0, 0, 0, 0, 0, 0⟩ (by decide) speedMon_lowgoal_run

/-- Claim C10 (counterexample): with the random factor pinned, damage is
not strictly increasing in move power.  Against a ground-type defender an
electric move deals `int(base * 0) = 0` at power 10 and at power 100
alike; and for a technician attacker raising power from 60 to 61 loses
the 1.5 low-power boost, dropping the damage from 59 to 40. -/
theorem damage_power_strict_monotonicity_fails :
    ((10 : Int) < 100 ∧
     calculate_damage statusNoneAttacker groundDefender "Thunderbolt"
       "electric" 10 false none none 1 = .ok 0 ∧
     calculate_damage statusNoneAttacker groundDefender "Thunderbolt"
       "electric" 100 false none none 1 = .ok 0) ∧
    ((60 : Int) < 61 ∧
     calculate_damage technicianAttacker bulkyDefender "Hidden Power"
       "normal" 60 false none none 1 = .ok 59 ∧
     calculate_damage technicianAttacker bulkyDefender "Hidden Power"
       "normal" 61 false none none 1 = .ok 40) := by
  have hst1 : calculateStatusModifier statusNoneAttacker = .ok 1 := rfl
  have hst2 : calculateStatusModifier technicianAttacker = .ok 1 := rfl
  have hty1 : statusNoneAttacker.types = ["electric"] := rfl
  have hab1 : statusNoneAttacker.ability = none := rfl
  have hit1 : statusNoneAttacker.item = none := rfl
  have hlv1 : statusNoneAttacker.level = 100 := rfl
  have hty2 : technicianAttacker.types = ["electric"] := rfl
  have hab2 : technicianAttacker.ability = some "technician" := rfl
  have hit2 : technicianAttacker.item = none := rfl
  have hlv2 : technicianAttacker.level = 100 := rfl
  have hdty1 : groundDefender.types = ["ground"] := rfl
  have hdty2 : bulkyDefender.types = ["water", "flying"] := rfl
  refine ⟨⟨by norm_num, ?_, ?_⟩, ⟨by norm_num, ?_, ?_⟩⟩ <;>
    (simp [calculate_damage, getAttackDefenseStats, specialTypes,
      statusNone_stats_eq, ground_stats_eq, technician_stats_eq,
      bulky_stats_eq, calculateStab, hst1, hst2, hty1, hab1, hit1, hlv1,
      hty2, hab2, hit2, hlv2, hdty1, hdty2,
      calculateTypeEffectiveness, lookupStr, typeEffectiveness,
      calculateWeatherModifier, calculateFieldModifier,
      calculateAbilityModifier, calculateItemModifier,
      bind, Except.bind, pure, Except.pure]
     norm_num [pyInt])

/-- Claim C10 (amended): with the random factor pinned to any
non-negative value, and for an attacker that is not a technician (whose
low-power boost makes the claim false), the returned damage is monotone
non-decreasing in the move power whenever both calls return, provided the
selected attack stat is non-negative and the selected defense stat is
positive; strictness fails in general because of the final `int()`
truncation and zero multipliers. -/
theorem damage_nondecreasing_in_power
    (attacker defender : PokemonInstance) (move mt : String)
    (p₁ p₂ : Int) (crit : Bool) (w fld : Option String) (r : Rat)
    (A D : Int)
    (hstats : getAttackDefenseStats attacker defender mt = .ok (A, D))
    (hA : 0 ≤ A) (hD : 0 < D) (hr : 0 ≤ r) (hl : 0 ≤ attacker.level)
    (htech : attacker.ability ≠ some "technician")
    (hp1 : 0 ≤ p₁) (hp12 : p₁ ≤ p₂) (d₁ d₂ : Int)
    (h₁ : calculate_damage attacker defender move mt p₁ crit w fld r = .ok d₁)
    (h₂ : calculate_damage attacker defender move mt p₂ crit w fld r = .ok d₂) :
    d₁ ≤ d₂ := by
  rcases hst : calculateStatusModifier attacker with e | sm
  · rw [calculate_damage] at h₁
    simp only [hstats, hst, bind, Except.bind] at h₁
    cases h₁
  · have hsm := calculateStatusModifier_ok attacker sm hst
    subst hsm
    rw [calculate_damage] at h₁ h₂
    simp only [hstats, hst, bind, Except.bind, pure, Except.pure,
      if_neg (ne_of_gt hD)] at h₁ h₂
    have hab : calculateAbilityModifier attacker mt p₂
          (calculateTypeEffectiveness mt defender) =
        calculateAbilityModifier attacker mt p₁
          (calculateTypeEffectiveness mt defender) := by
      unfold calculateAbilityModifier
      rcases ha : attacker.ability with _ | ab
      · rfl
      · have hne : ab ≠ "technician" := by
          intro hcontra
          exact htech (by rw [ha, hcontra])
        simp [hne]
    rw [hab] at h₂
    set eff := calculateTypeEffectiveness mt defender with heff
    set M := calculateStab attacker mt * eff *
        (if crit = true then (3 : Rat)/2 else 1) * r *
        calculateWeatherModifier mt w * calculateFieldModifier mt fld *
        calculateAbilityModifier attacker mt p₁ eff *
        calculateItemModifier attacker mt * 1 with hM
    have hMnonneg : 0 ≤ M := by
      rw [hM]
      have c1 := calculateStab_nonneg attacker mt
      have c2 := calculateTypeEffectiveness_nonneg mt defender
      have c3 : (0 : Rat) ≤ if crit = true then (3 : Rat)/2 else 1 := by
        split <;> norm_num
      have c5 := calculateWeatherModifier_nonneg mt w
      have c6 := calculateFieldModifier_nonneg mt fld
      have c7 := calculateAbilityModifier_nonneg attacker mt p₁ eff
      have c8 := calculateItemModifier_nonneg attacker mt
      positivity
    have hk : (0 : Rat) ≤ 2 * (attacker.level : Rat) / 5 + 2 := by
      have : (0 : Rat) ≤ (attacker.level : Rat) := by exact_mod_cast hl
      positivity
    have hAq : (0 : Rat) ≤ (A : Rat) := by exact_mod_cast hA
    have hDq : (0 : Rat) < (D : Rat) := by exact_mod_cast hD
    have hp1q : (0 : Rat) ≤ (p₁ : Rat) := by exact_mod_cast hp1
    have hp12q : (p₁ : Rat) ≤ (p₂ : Rat) := by exact_mod_cast hp12
    have hbase1 : (0 : Rat) ≤
        (2 * (attacker.level : Rat) / 5 + 2) * (p₁ : Rat) * (A : Rat)
          / (D : Rat) / 50 + 2 := by positivity
    have hbasele :
        (2 * (attacker.level : Rat) / 5 + 2) * (p₁ : Rat) * (A : Rat)
          / (D : Rat) / 50 + 2 ≤
        (2 * (attacker.level : Rat) / 5 + 2) * (p₂ : Rat) * (A : Rat)
          / (D : Rat) / 50 + 2 := by
      gcongr
    have key := pyInt_mono (mul_nonneg hbase1 hMnonneg)
      (mul_le_mul_of_nonneg_right hbasele hMnonneg)
    rw [← Except.ok.inj h₁, ← Except.ok.inj h₂]
    exact key

/-- Witness for C10: the monotonicity theorem applied to the concrete
electric-move scenario at powers 50 and 60, whose damages are 157 and
186. -/
theorem damage_nondecreasing_in_power_witness : (157 : Int) ≤ 186 := by
  have hst : calculateStatusModifier statusNoneAttacker = .ok 1 := rfl
  have hty : statusNoneAttacker.types = ["electric"] := rfl
  have hab : statusNoneAttacker.ability = none := rfl
  have hit : statusNoneAttacker.item = none := rfl
  have hlv : statusNoneAttacker.level = 100 := rfl
  have hdty : bulkyDefender.types = ["water", "flying"] := rfl
  refine damage_nondecreasing_in_power statusNoneAttacker bulkyDefender
    "Thunderbolt" "electric" 50 60 false none none 1 136 236
    ?_ (by norm_num) (by norm_num) (by norm_num) (by rw [hlv]; norm_num) ?_
    (by norm_num) (by norm_num) 157 186 ?_ ?_
  · simp [getAttackDefenseStats, specialTypes, statusNone_stats_eq,
      bulky_stats_eq, bind, Except.bind, pure, Except.pure]
  · rw [hab]
    simp
  all_goals
    (simp [calculate_damage, getAttackDefenseStats, specialTypes,
      statusNone_stats_eq, bulky_stats_eq, calculateStab, hst, hty, hab,
      hit, hlv, hdty, calculateTypeEffectiveness, lookupStr,
      typeEffectiveness, calculateWeatherModifier, calculateFieldModifier,
      calculateAbilityModifier, calculateItemModifier,
      bind, Except.bind, pure, Except.pure]
     norm_num [pyInt])
